import Mathlib

/-!
Shallow embedding of `src/kbase/sdk_baseclient.py` (kb_sdk_baseclient):
the KBase SDK base client.  JSON values are modelled as an inductive
`Json`; Python argument values (which may contain `set`/`frozenset`) as
`PyVal`; the HTTP response handed back by the `requests` library as a
`Resp` record carrying the status code, the `content-type` header, the
decoded body text and the result of JSON-parsing that text (`none` when
`ret.json()` would raise).  `_call`'s response classification is the
function `classifyResponse`; the constructor `SDKBaseClient.__init__` is
`SDKBaseClient.init`, returning `Except String Client` where `.error`
models a raised `ValueError` with the given message.
-/

/-- JSON values as parsed by Python's `json` module (numbers restricted to
integers, which covers every value appearing in the client's own logic). -/
inductive Json where
  | null
  | bool (b : Bool)
  | num (n : Int)
  | str (s : String)
  | arr (xs : List Json)
  | obj (kvs : List (String × Json))

namespace Json

/-- Lookup of a key in a JSON object (Python `d[k]` / `d.get(k)`); `none`
for absent keys and for non-object values. -/
def get : Json → String → Option Json
  | .obj kvs, k => kvs.lookup k
  | _, _ => none

/-- Python `needle in j` for a parsed JSON value: key membership on a
dict, element equality on a list, substring test on a string, and a
`TypeError` (`none`) on values that are not containers. -/
def pyIn (needle : String) : Json → Option Bool
  | .obj kvs => some (kvs.lookup needle).isSome
  | .arr xs => some (xs.any fun x =>
      match x with
      | .str s => s == needle
      | _ => false)
  | .str s => some (decide (needle.toList <:+: s.toList))
  | _ => none

/-- Python truthiness of a parsed JSON value (`not resp["result"]`):
null, False, 0, "", [] and {} are falsy. -/
def truthy : Json → Bool
  | .null => false
  | .bool b => b
  | .num n => n != 0
  | .str s => s != ""
  | .arr xs => !xs.isEmpty
  | .obj kvs => !kvs.isEmpty

end Json

/-- Python values passed as call arguments: JSON-native values plus the
`set` and `frozenset` containers special-cased by `_JSONObjectEncoder`.
The element list of a `set`/`frozenset` is the iteration order the
container yields. -/
inductive PyVal where
  | null
  | bool (b : Bool)
  | num (n : Int)
  | str (s : String)
  | list (xs : List PyVal)
  | dict (kvs : List (String × PyVal))
  | set (xs : List PyVal)
  | frozenset (xs : List PyVal)

mutual

/-- `json.dumps(-, cls=_JSONObjectEncoder)` at the level of the JSON value
tree: native types map to themselves, and the encoder's `default` hook
turns `set` and `frozenset` into `list(obj)`, i.e. a JSON array of the
elements in iteration order. -/
def encode : PyVal → Json
  | .null => .null
  | .bool b => .bool b
  | .num n => .num n
  | .str s => .str s
  | .list xs => .arr (encodeList xs)
  | .dict kvs => .obj (encodeKvs kvs)
  | .set xs => .arr (encodeList xs)
  | .frozenset xs => .arr (encodeList xs)

/-- Elementwise encoding of a list of Python values. -/
def encodeList : List PyVal → List Json
  | [] => []
  | x :: xs => encode x :: encodeList xs

/-- Elementwise encoding of the entries of a Python dict. -/
def encodeKvs : List (String × PyVal) → List (String × Json)
  | [] => []
  | (k, v) :: kvs => (k, encode v) :: encodeKvs kvs

end

/-- The `ServerError` exception's data after construction. -/
structure ServerError where
  name : String
  code : Int
  message : String
  data : String
deriving DecidableEq, Repr

/-- Python `a or b` for an optional string `a` (None and "" are falsy). -/
def pyOrStr (a : Option String) (b : String) : String :=
  match a with
  | none => b
  | some s => if s = "" then b else s

namespace ServerError

/-- `ServerError.__init__(name, code, message, data=None, error=None)`:
`self.message = "" if message is None else message` and
`self.data = data or error or ""`. -/
def init (name : String) (code : Int) (message : Option String)
    (data : Option String) (error : Option String) : ServerError :=
  { name := name
    code := code
    message := match message with
      | none => ""
      | some m => m
    data := pyOrStr data (pyOrStr error "") }

/-- `ServerError.__str__`:
`self.name + ": " + str(self.code) + ". " + self.message + "\n" + self.data`. -/
def toStr (e : ServerError) : String :=
  e.name ++ ": " ++ toString e.code ++ ". " ++ e.message ++ "\n" ++ e.data

end ServerError

/-- The HTTP response `_call` receives from `requests.post`, as far as the
classification logic consults it: the status code, the `content-type`
header (`ret.headers.get("content-type")`), the UTF-8-decoded body text
(`ret.text`), and the outcome of `ret.json()` — `some` the parsed value
when the text is parseable JSON, `none` when `ret.json()` would raise a
JSON-parse exception. -/
structure Resp where
  status : Nat
  contentType : Option String
  text : String
  json : Option Json

/-- `requests.Response.ok`: true exactly when `raise_for_status()` raises
no `HTTPError`, i.e. when the status code is not in `[400, 600)`. -/
def respOk (status : Nat) : Bool :=
  !(400 ≤ status && status < 600)

/-- What `_call` does with a received response. -/
inductive CallOutcome where
  /-- A normal return; the empty-result return of Python `None` is `ret .null`. -/
  | ret (v : Json)
  /-- `raise ServerError(...)`. -/
  | serverError (e : ServerError)
  /-- `ret.raise_for_status()` raising the transport's `HTTPError` for this status. -/
  | httpError (status : Nat)
  /-- `ret.json()` raising a raw JSON-parse exception (unparseable body). -/
  | jsonError
  /-- A Python-level `TypeError`/`KeyError` outside the shapes this embedding
  types precisely (e.g. `ServerError(**err["error"])` with unexpected or
  missing keyword names, or `len()` of a non-sized truthy result). -/
  | pyError

/-- A JSON field holding an optional string: absent or `null` map to Python
`None`, a string maps to itself, any other type is outside the typed model. -/
def jOptStrField (kvs : List (String × Json)) (k : String) :
    Option (Option String) :=
  match kvs.lookup k with
  | none => some none
  | some .null => some none
  | some (.str s) => some (some s)
  | some _ => none

/-- `ServerError(**err["error"])` on a parsed error object: succeeds when the
keys are among name/code/message/data/error with name a string, code a
number and message a string or null (optional data/error strings), and
constructs the `ServerError` from exactly those fields.  `none` stands for
the cases where Python would raise a `TypeError` (an unexpected or missing
keyword) or where a field's type falls outside this embedding. -/
def buildServerError (kvs : List (String × Json)) : Option ServerError :=
  if kvs.all (fun kv =>
      kv.1 == "name" || kv.1 == "code" || kv.1 == "message" ||
      kv.1 == "data" || kv.1 == "error") then
    match kvs.lookup "name", kvs.lookup "code", kvs.lookup "message" with
    | some (.str name), some (.num code), some msgJ =>
      let message? : Option (Option String) :=
        match msgJ with
        | .null => some none
        | .str m => some (some m)
        | _ => none
      match message?, jOptStrField kvs "data", jOptStrField kvs "error" with
      | some message, some d, some e =>
        some (ServerError.init name code message d e)
      | _, _, _ => none
    | _, _, _ => none
  else none

/-- The response-classification tail of `_call` (everything after
`ret.encoding = "utf-8"`): the 500 branch with its content-type and
`"error"`-key dispatch, `raise_for_status` for other non-OK statuses, and
the result decoding of the success path. -/
def classifyResponse (r : Resp) : CallOutcome :=
  if r.status = 500 then
    if r.contentType = some "application/json" then
      match r.json with
      | none => .jsonError
      | some err =>
        match Json.pyIn "error" err with
        | none => .pyError
        | some true =>
          match err.get "error" with
          | some (.obj errKvs) =>
            match buildServerError errKvs with
            | some e => .serverError e
            | none => .pyError
          | _ => .pyError
        | some false =>
          .serverError (ServerError.init "Unknown" 0
            (some ("The server returned unexpected error JSON: " ++ r.text))
            none none)
    else
      .serverError (ServerError.init "Unknown" 0
        (some ("The server returned a non-JSON response: " ++ r.text))
        none none)
  else if !respOk r.status then
    .httpError r.status
  else
    match r.json with
    | none => .jsonError
    | some resp =>
      match Json.pyIn "result" resp with
      | none => .pyError
      | some false => .serverError (ServerError.init "Unknown" 0
          (some "An unknown server error occurred") none none)
      | some true =>
        match resp.get "result" with
        | some res =>
          if !res.truthy then
            .ret .null
          else
            match res with
            | .arr xs =>
              if xs.length = 1 then .ret (xs.headD .null) else .ret (.arr xs)
            | .str s => .ret (.str s)
            | .obj kvs => if kvs.length = 1 then .pyError else .ret (.obj kvs)
            | _ => .pyError
        | none => .pyError

/-- A character allowed in a URL scheme by `urllib.parse`
(ASCII letters, digits, `+`, `-`, `.`). -/
def isSchemeChar (c : Char) : Bool :=
  c.isAlpha || c.isDigit || c = '+' || c = '-' || c = '.'

/-- The `scheme` component of `urllib.parse.urlparse(url)`: when the url has
a colon at a positive index, the prefix before the first colon starts with
an ASCII letter and consists of scheme characters, the scheme is that
prefix lowercased; otherwise it is the empty string. -/
def urlScheme (url : String) : String :=
  let cs := url.toList
  match cs.findIdx? (· = ':') with
  | none => ""
  | some i =>
    if 0 < i ∧ (cs.headD ' ').isAlpha ∧ (cs.take i).all isSchemeChar then
      String.mk ((cs.take i).map Char.toLower)
    else ""

/-- Python `int()` applied to a rational (models `int(timeout)` on int or
float input): truncation toward zero. -/
def pyInt (q : ℚ) : Int :=
  q.num.tdiv q.den

/-- `_URL_SCHEME = frozenset(["http", "https"])`. -/
def URL_SCHEME : List String := ["http", "https"]

/-- The state of a successfully constructed `SDKBaseClient` (the attributes
`__init__` assigns; times in seconds as rationals where the source divides
milliseconds by 1000.0). -/
structure Client where
  url : String
  timeout : Int
  trust_all_ssl_certificates : Bool
  lookup_url : Bool
  async_job_check_time : ℚ
  async_job_check_time_scale_percent : Int
  async_job_check_max_time : ℚ
  token : Option String
  headers : List (String × String)

namespace SDKBaseClient

/-- The token-resolution steps of `__init__`:
`self.token = None; if token is not None: self.token = token;
elif "KB_AUTH_TOKEN" in os.environ: self.token = os.environ.get(...)`.
The explicit parameter, whatever its value, takes precedence; the
environment variable is consulted only when the parameter is `None`. -/
def resolveToken (token envToken : Option String) : Option String :=
  match token with
  | some t => some t
  | none => envToken

/-- `if self.token: self._headers["AUTHORIZATION"] = self.token` applied to
the initially empty headers dict: the header is set exactly when the
resolved token is truthy (non-`None` and non-empty), and carries the token
verbatim. -/
def authHeaders (tok : Option String) : List (String × String) :=
  match tok with
  | some t => if t = "" then [] else [("AUTHORIZATION", t)]
  | none => []

/-- `SDKBaseClient.__init__`.  `url` is `none` for Python `None`; `timeout`
is a rational so that float arguments and `int(timeout)` truncation are
modelled; `token` is the explicit parameter; `envToken` is the value of the
`KB_AUTH_TOKEN` environment variable when set.  `.error msg` models
`raise ValueError(msg)`; no network activity occurs anywhere in the
constructor. -/
def init (url : Option String) (timeout : ℚ) (token : Option String)
    (envToken : Option String) (trust_all_ssl_certificates : Bool)
    (lookup_url : Bool) (async_job_check_time_ms : Int)
    (async_job_check_time_scale_percent : Int)
    (async_job_check_max_time_ms : Int) : Except String Client :=
  match url with
  | none => .error "A url is required"
  | some u =>
    if urlScheme u ∈ URL_SCHEME then
      let timeoutI : Int := pyInt timeout
      let tok : Option String := resolveToken token envToken
      let headers : List (String × String) := authHeaders tok
      if timeoutI < 1 then
        .error "Timeout value must be at least 1 second"
      else
        .ok { url := u
              timeout := timeoutI
              trust_all_ssl_certificates := trust_all_ssl_certificates
              lookup_url := lookup_url
              async_job_check_time := (async_job_check_time_ms : ℚ) / 1000
              async_job_check_time_scale_percent := async_job_check_time_scale_percent
              async_job_check_max_time := (async_job_check_max_time_ms : ℚ) / 1000
              token := tok
              headers := headers }
    else
      .error (u ++ " isn't a valid http url")

end SDKBaseClient

/-- The HTTP POST that `_call` issues via `requests.post`: target url, the
serialized envelope as a JSON value, the client's prepared headers, the
timeout, and `verify=not self.trust_all_ssl_certificates`. -/
structure Request where
  url : String
  body : Json
  headers : List (String × String)
  timeout : Int
  verify : Bool

/-- The request envelope `arg_hash` built by `_call` (field order as the
source inserts them; `idStr` is the fresh `str(random.random())[2:]`), with
`context` appended only when truthy, then serialized with
`_JSONObjectEncoder`. -/
def buildEnvelope (method : String) (params : List PyVal)
    (context : Option (List (String × PyVal))) (idStr : String) : Json :=
  Json.obj
    ([("method", .str method),
      ("params", .arr (encodeList params)),
      ("version", .str "1.1"),
      ("id", .str idStr)] ++
     (match context with
      | some c => if c.isEmpty then [] else [("context", encode (.dict c))]
      | none => []))

namespace SDKBaseClient

/-- The `requests.post` call inside `_call`, as the request it sends. -/
def callRequest (c : Client) (url : String) (method : String)
    (params : List PyVal) (context : Option (List (String × PyVal)))
    (idStr : String) : Request :=
  { url := url
    body := buildEnvelope method params context idStr
    headers := c.headers
    timeout := c.timeout
    verify := !c.trust_all_ssl_certificates }

/-- `_call(url, method, params, context)`: build the envelope, POST it
(`transport` stands for the network handing back the response), and
classify the response.  `idStr` threads the random request id. -/
def call (c : Client) (url : String) (method : String)
    (params : List PyVal) (context : Option (List (String × PyVal)))
    (idStr : String) (transport : Request → Resp) : CallOutcome :=
  classifyResponse (transport (callRequest c url method params context idStr))

/-- `call_method(service_method, args, service_ver=...)`: dynamic-service
resolution is not implemented, so the url is `self.url` and the context is
`None`; `service_ver` is accepted and unused. -/
def call_method (c : Client) (service_method : String) (args : List PyVal)
    (service_ver : Option String) (idStr : String)
    (transport : Request → Resp) : CallOutcome :=
  call c c.url service_method args none idStr transport

end SDKBaseClient

/-- Whether an outcome is a raised `ServerError` carrying name `"Unknown"`
and code `0`. -/
def isUnknownZero : CallOutcome → Bool
  | .serverError e => e.name == "Unknown" && e.code == 0
  | _ => false

/-- Whether an outcome is a raised `ServerError` of any shape. -/
def isServerErrorOutcome : CallOutcome → Bool
  | .serverError _ => true
  | _ => false

/-- C1: for every HTTP response with status code 500, content-type exactly
`"application/json"`, and a JSON-parseable body whose `"error"` value has
the fields name, code, message, and optionally data or error, `_call`
raises a `ServerError` whose name, code, message and data are constructed
(by `ServerError.__init__`) from exactly those fields, and whose string
form is `"{name}: {code}. {message}\n{data}"`. -/
theorem call_raises_parsed_server_error (r : Resp)
    (bodyKvs errKvs : List (String × Json)) (name : String) (code : Int)
    (msg : String) (dataOpt errOpt : Option String)
    (hst : r.status = 500)
    (hct : r.contentType = some "application/json")
    (hjson : r.json = some (.obj bodyKvs))
    (herr : bodyKvs.lookup "error" = some (.obj errKvs))
    (hname : errKvs.lookup "name" = some (.str name))
    (hcode : errKvs.lookup "code" = some (.num code))
    (hmsg : errKvs.lookup "message" = some (.str msg))
    (hdata : errKvs.lookup "data" = dataOpt.map Json.str)
    (herrF : errKvs.lookup "error" = errOpt.map Json.str)
    (hkeys : errKvs.all (fun kv =>
        kv.1 == "name" || kv.1 == "code" || kv.1 == "message" ||
        kv.1 == "data" || kv.1 == "error") = true) :
    classifyResponse r =
      .serverError (ServerError.init name code (some msg) dataOpt errOpt) ∧
    (ServerError.init name code (some msg) dataOpt errOpt).toStr =
      name ++ ": " ++ toString code ++ ". " ++ msg ++ "\n" ++
        (ServerError.init name code (some msg) dataOpt errOpt).data := by
  constructor
  · have hd : jOptStrField errKvs "data" = some dataOpt := by
      cases dataOpt <;> simp [jOptStrField, hdata]
    have he : jOptStrField errKvs "error" = some errOpt := by
      cases errOpt <;> simp [jOptStrField, herrF]
    simp [classifyResponse, hst, hct, hjson, Json.pyIn, Json.get, herr,
      buildServerError, hkeys, hname, hcode, hmsg, hd, he]
  · simp [ServerError.toStr, ServerError.init]

/-- C1 witness: the spec's example — status 500, JSON body
`{"error": {"name": "E", "code": -1, "message": "m", "data": "d"}}`. -/
theorem call_raises_parsed_server_error_witness :
    classifyResponse
        ⟨500, some "application/json", "body",
          some (.obj [("error", .obj
            [("name", .str "E"), ("code", .num (-1)),
             ("message", .str "m"), ("data", .str "d")])])⟩ =
      .serverError (ServerError.init "E" (-1) (some "m") (some "d") none) ∧
    (ServerError.init "E" (-1) (some "m") (some "d") none).toStr =
      "E" ++ ": " ++ toString (-1 : Int) ++ ". " ++ "m" ++ "\n" ++
        (ServerError.init "E" (-1) (some "m") (some "d") none).data :=
  call_raises_parsed_server_error _ _ _ _ _ _ _ _
    rfl rfl rfl rfl rfl rfl rfl rfl rfl rfl

/-- C2: for a non-500, OK-status response whose parsed JSON body is `resp`:
an absent `"result"` key raises `ServerError("Unknown", 0, "An unknown
server error occurred")` with empty data; an empty `"result"` array returns
Python `None`; a one-element array returns that element with no wrapping;
a longer array returns the full ordered sequence. -/
theorem call_result_decoding (r : Resp) (body : List (String × Json))
    (h500 : r.status ≠ 500) (hok : respOk r.status = true)
    (hjson : r.json = some (.obj body)) :
    ((Json.obj body).get "result" = none →
      classifyResponse r = .serverError
        { name := "Unknown", code := 0,
          message := "An unknown server error occurred", data := "" }) ∧
    ((Json.obj body).get "result" = some (.arr []) →
      classifyResponse r = .ret .null) ∧
    (∀ x : Json, (Json.obj body).get "result" = some (.arr [x]) →
      classifyResponse r = .ret x) ∧
    (∀ xs : List Json, 1 < xs.length →
      (Json.obj body).get "result" = some (.arr xs) →
      classifyResponse r = .ret (.arr xs)) := by
  refine ⟨fun h => ?_, fun h => ?_, fun x h => ?_, fun xs hlen h => ?_⟩
  · simp only [Json.get] at h
    simp [classifyResponse, h500, hok, hjson, Json.pyIn, h,
      ServerError.init, pyOrStr]
  · simp only [Json.get] at h
    simp [classifyResponse, h500, hok, hjson, Json.pyIn, Json.get, h,
      Json.truthy]
  · simp only [Json.get] at h
    simp [classifyResponse, h500, hok, hjson, Json.pyIn, Json.get, h,
      Json.truthy]
  · simp only [Json.get] at h
    cases xs with
    | nil => simp at hlen
    | cons a t =>
      have hne : ¬ t = [] := by rintro rfl; simp at hlen
      simp [classifyResponse, h500, hok, hjson, Json.pyIn, Json.get, h,
        Json.truthy, hne]

/-- C2 witness: the four decoding branches at concrete responses (status
200, bodies `{"x": null}`, `{"result": []}`, `{"result": [7]}`,
`{"result": [1, 2]}`). -/
theorem call_result_decoding_witness :
    classifyResponse ⟨200, none, "", some (.obj [("x", .null)])⟩ =
      .serverError ⟨"Unknown", 0, "An unknown server error occurred", ""⟩ ∧
    classifyResponse ⟨200, none, "", some (.obj [("result", .arr [])])⟩ =
      .ret .null ∧
    classifyResponse ⟨200, none, "", some (.obj [("result", .arr [.num 7])])⟩ =
      .ret (.num 7) ∧
    classifyResponse
        ⟨200, none, "", some (.obj [("result", .arr [.num 1, .num 2])])⟩ =
      .ret (.arr [.num 1, .num 2]) :=
  ⟨(call_result_decoding ⟨200, none, "", some (.obj [("x", .null)])⟩ _
      (by decide) rfl rfl).1 rfl,
   (call_result_decoding ⟨200, none, "", some (.obj [("result", .arr [])])⟩ _
      (by decide) rfl rfl).2.1 rfl,
   (call_result_decoding
      ⟨200, none, "", some (.obj [("result", .arr [.num 7])])⟩ _
      (by decide) rfl rfl).2.2.1 _ rfl,
   (call_result_decoding
      ⟨200, none, "", some (.obj [("result", .arr [.num 1, .num 2])])⟩ _
      (by decide) rfl rfl).2.2.2 _ (by decide) rfl⟩

/-- C3 counterexample: a status-500 response with content-type
`"application/json"` whose body text is not parseable JSON makes `_call`
propagate the raw JSON-parse exception raised by `ret.json()` — the
outcome is not a `ServerError` with name `"Unknown"` and code `0`,
contrary to the claim. -/
theorem call_unparseable_body_counterexample :
    classifyResponse ⟨500, some "application/json", "not json", none⟩ =
      .jsonError ∧
    isUnknownZero
      (classifyResponse ⟨500, some "application/json", "not json", none⟩) =
      false :=
  ⟨rfl, rfl⟩

/-- C3 amended: a 500/`application/json` response whose parsed body lacks
an `"error"` key, and a 500 response with a different content-type, are
normalized to a `ServerError` with name `"Unknown"` and code `0` (message
embedding the raw body text); but when the body is not parseable JSON —
at status 500 with `application/json` content-type, or at an OK status —
the raw JSON-parse exception escapes to the caller. -/
theorem call_malformed_body_handling (r : Resp) :
    (r.status = 500 → r.contentType = some "application/json" →
      ∀ body : List (String × Json), r.json = some (.obj body) →
      (Json.obj body).get "error" = none →
      classifyResponse r = .serverError (ServerError.init "Unknown" 0
        (some ("The server returned unexpected error JSON: " ++ r.text))
        none none)) ∧
    (r.status = 500 → ¬ r.contentType = some "application/json" →
      classifyResponse r = .serverError (ServerError.init "Unknown" 0
        (some ("The server returned a non-JSON response: " ++ r.text))
        none none)) ∧
    (r.status = 500 → r.contentType = some "application/json" →
      r.json = none → classifyResponse r = .jsonError) ∧
    (r.status ≠ 500 → respOk r.status = true → r.json = none →
      classifyResponse r = .jsonError) := by
  refine ⟨fun h5 hct body hj hk => ?_, fun h5 hct => ?_, fun h5 hct hj => ?_,
    fun h5 hok hj => ?_⟩
  · simp only [Json.get] at hk
    simp [classifyResponse, h5, hct, hj, Json.pyIn, hk]
  · simp [classifyResponse, h5, hct]
  · simp [classifyResponse, h5, hct, hj]
  · simp [classifyResponse, h5, hok, hj]

/-- C3 amended, witness: the mock-server shapes from the test suite — a
500/JSON body without an `"error"` key, a 500 `text/plain` body, and
unparseable bodies at 500 and at 200. -/
theorem call_malformed_body_handling_witness :
    classifyResponse
        ⟨500, some "application/json", "oops body",
          some (.obj [("oops", .str "x")])⟩ =
      .serverError (ServerError.init "Unknown" 0
        (some ("The server returned unexpected error JSON: " ++ "oops body"))
        none none) ∧
    classifyResponse ⟨500, some "text/plain", "Wrong server pal", none⟩ =
      .serverError (ServerError.init "Unknown" 0
        (some ("The server returned a non-JSON response: " ++
          "Wrong server pal")) none none) ∧
    classifyResponse ⟨500, some "application/json", "nj", none⟩ =
      .jsonError ∧
    classifyResponse ⟨200, none, "nj", none⟩ = .jsonError :=
  ⟨(call_malformed_body_handling
      ⟨500, some "application/json", "oops body",
        some (.obj [("oops", .str "x")])⟩).1 rfl rfl _ rfl rfl,
   (call_malformed_body_handling
      ⟨500, some "text/plain", "Wrong server pal", none⟩).2.1 rfl (by decide),
   (call_malformed_body_handling
      ⟨500, some "application/json", "nj", none⟩).2.2.1 rfl rfl rfl,
   (call_malformed_body_handling
      ⟨200, none, "nj", none⟩).2.2.2 (by decide) rfl rfl⟩

/-- C4 counterexample: with the server's data field present but empty and
the error field present as `"e"`, the constructed data is `"e"`, not the
empty first-present field — `data or error or ""` takes the first truthy
value, not the first present one. -/
theorem serverError_data_counterexample :
    (ServerError.init "N" 1 (some "m") (some "") (some "e")).data = "e" ∧
    ¬ (ServerError.init "N" 1 (some "m") (some "") (some "e")).data = "" :=
  ⟨rfl, by decide⟩

/-- C4 amended: for every combination of server-supplied constructor
inputs, the constructed message and data are (non-null) strings: the
message is the empty string when the server's message is null and the
message itself otherwise, and the data is the first of the data/error
fields carrying a truthy (present and non-empty) value, or the empty
string when neither does. -/
theorem serverError_ctor_normalization (name : String) (code : Int)
    (message data error : Option String) :
    (ServerError.init name code message data error).message =
      message.getD "" ∧
    (∀ s : String, data = some s → ¬ s = "" →
      (ServerError.init name code message data error).data = s) ∧
    ((data = none ∨ data = some "") → ∀ t : String, error = some t →
      ¬ t = "" → (ServerError.init name code message data error).data = t) ∧
    ((data = none ∨ data = some "") → (error = none ∨ error = some "") →
      (ServerError.init name code message data error).data = "") := by
  refine ⟨?_, fun s hs hne => ?_, fun hd t ht hne => ?_, fun hd he => ?_⟩
  · cases message <;> rfl
  · subst hs; simp [ServerError.init, pyOrStr, hne]
  · subst ht
    rcases hd with rfl | rfl <;> simp [ServerError.init, pyOrStr, hne]
  · rcases hd with rfl | rfl <;> rcases he with rfl | rfl <;>
      simp [ServerError.init, pyOrStr]

/-- C4 amended, witness: a null message yields `""`; data `""` with error
`"e"` yields `"e"`; data `"d"` yields `"d"`; both absent yields `""`. -/
theorem serverError_ctor_normalization_witness :
    (ServerError.init "N" 1 none (some "") (some "e")).message = "" ∧
    (ServerError.init "N" 1 none (some "") (some "e")).data = "e" ∧
    (ServerError.init "N" 1 (some "m") (some "d") none).data = "d" ∧
    (ServerError.init "N" 1 (some "m") none none).data = "" :=
  ⟨(serverError_ctor_normalization "N" 1 none (some "") (some "e")).1,
   (serverError_ctor_normalization "N" 1 none (some "") (some "e")).2.2.1
     (Or.inr rfl) "e" rfl (by decide),
   (serverError_ctor_normalization "N" 1 (some "m") (some "d") none).2.1
     "d" rfl (by decide),
   (serverError_ctor_normalization "N" 1 (some "m") none none).2.2.2
     (Or.inl rfl) (Or.inl rfl)⟩

/-- C5: construction raises a `ValueError` exactly when the url is None,
or the url's parsed scheme is not http/https (the message citing the
offending url), or the timeout truncated to integer seconds is below 1;
for every such failing input no client is produced.
(`SDKBaseClient.init` is a pure function of its arguments — the source
constructor performs no network activity.) -/
theorem init_validation (url : Option String) (timeout : ℚ)
    (token envToken : Option String) (trust lookup : Bool)
    (ajct ajsp ajmax : Int) :
    ((∃ msg : String, SDKBaseClient.init url timeout token envToken trust
        lookup ajct ajsp ajmax = .error msg) ↔
      (url = none ∨
        (∃ u : String, url = some u ∧ urlScheme u ∉ URL_SCHEME) ∨
        pyInt timeout < 1)) ∧
    (url = none → SDKBaseClient.init url timeout token envToken trust
      lookup ajct ajsp ajmax = .error "A url is required") ∧
    (∀ u : String, url = some u → urlScheme u ∉ URL_SCHEME →
      SDKBaseClient.init url timeout token envToken trust lookup ajct ajsp
        ajmax = .error (u ++ " isn't a valid http url")) ∧
    (∀ u : String, url = some u → urlScheme u ∈ URL_SCHEME →
      pyInt timeout < 1 →
      SDKBaseClient.init url timeout token envToken trust lookup ajct ajsp
        ajmax = .error "Timeout value must be at least 1 second") ∧
    ((url = none ∨
        (∃ u : String, url = some u ∧ urlScheme u ∉ URL_SCHEME) ∨
        pyInt timeout < 1) →
      ∀ c : Client, SDKBaseClient.init url timeout token envToken trust
        lookup ajct ajsp ajmax ≠ .ok c) := by
  cases url with
  | none => simp [SDKBaseClient.init]
  | some u =>
    by_cases hs : urlScheme u ∈ URL_SCHEME
    · by_cases ht : pyInt timeout < 1
      · simp [SDKBaseClient.init, hs, ht]
      · simp [SDKBaseClient.init, hs, ht]
    · simp [SDKBaseClient.init, hs]

/-- C5 witness: the test suite's failing constructions — a None url, the
url `"ftp://foo.com/bar"`, and a zero timeout — each produce the matching
`ValueError`. -/
theorem init_validation_witness :
    SDKBaseClient.init none 1 none none false false 100 150 300000 =
      .error "A url is required" ∧
    SDKBaseClient.init (some "ftp://foo.com/bar") 1 none none false false
        100 150 300000 =
      .error ("ftp://foo.com/bar" ++ " isn't a valid http url") ∧
    SDKBaseClient.init (some "http://example.com") 0 none none false false
        100 150 300000 =
      .error "Timeout value must be at least 1 second" :=
  ⟨(init_validation none 1 none none false false 100 150 300000).2.1 rfl,
   (init_validation (some "ftp://foo.com/bar") 1 none none false false
      100 150 300000).2.2.1 "ftp://foo.com/bar" rfl (by decide),
   (init_validation (some "http://example.com") 0 none none false false
      100 150 300000).2.2.2.1 "http://example.com" rfl (by decide)
      (by decide)⟩

/-- C6: the explicit token parameter takes precedence over the
`KB_AUTH_TOKEN` environment variable when both are present; whenever a
token is resolved (the resolved token is truthy, per `if self.token:`),
the `AUTHORIZATION` header carries it verbatim — no `"Bearer "` prefix,
no encoding; and when no token is resolved, no header is set. -/
theorem init_token_resolution (url : Option String) (timeout : ℚ)
    (token envToken : Option String) (trust lookup : Bool)
    (ajct ajsp ajmax : Int) (c : Client)
    (hok : SDKBaseClient.init url timeout token envToken trust lookup ajct
      ajsp ajmax = .ok c) :
    (∀ tk ev : String, token = some tk → envToken = some ev →
      c.token = some tk) ∧
    (∀ t : String, c.token = some t → ¬ t = "" →
      c.headers = [("AUTHORIZATION", t)]) ∧
    (c.token = none → c.headers = []) := by
  cases url with
  | none => simp [SDKBaseClient.init] at hok
  | some u =>
    by_cases hs : urlScheme u ∈ URL_SCHEME
    · by_cases ht : pyInt timeout < 1
      · simp [SDKBaseClient.init, hs, ht] at hok
      · simp [SDKBaseClient.init, hs, ht] at hok
        subst hok
        refine ⟨fun tk ev htk hev => ?_, fun t htok hne => ?_,
          fun htok => ?_⟩
        · subst htk; rfl
        · simp only [] at htok
          simp [SDKBaseClient.authHeaders, htok, hne]
        · simp only [] at htok
          simp [SDKBaseClient.authHeaders, htok]
    · simp [SDKBaseClient.init, hs] at hok

/-- C6 witness: construction with explicit token `"tok"` while the
environment variable holds `"envtok"` resolves `"tok"` and sets the
verbatim `AUTHORIZATION` header. -/
theorem init_token_resolution_witness :
    (Client.mk "http://example.com" (pyInt 1800) false false
        (((100 : Int) : ℚ) / 1000) 150 (((300000 : Int) : ℚ) / 1000)
        (some "tok") [("AUTHORIZATION", "tok")]).token = some "tok" ∧
    (Client.mk "http://example.com" (pyInt 1800) false false
        (((100 : Int) : ℚ) / 1000) 150 (((300000 : Int) : ℚ) / 1000)
        (some "tok") [("AUTHORIZATION", "tok")]).headers =
      [("AUTHORIZATION", "tok")] :=
  have hok : SDKBaseClient.init (some "http://example.com") 1800
      (some "tok") (some "envtok") false false 100 150 300000 =
      .ok (Client.mk "http://example.com" (pyInt 1800) false false
        (((100 : Int) : ℚ) / 1000) 150 (((300000 : Int) : ℚ) / 1000)
        (some "tok") [("AUTHORIZATION", "tok")]) := rfl
  ⟨(init_token_resolution _ _ _ _ _ _ _ _ _ _ hok).1 "tok" "envtok" rfl rfl,
   (init_token_resolution _ _ _ _ _ _ _ _ _ _ hok).2.1 "tok" rfl
     (by decide)⟩

/-- C10: an explicit empty-string token suppresses the `KB_AUTH_TOKEN`
environment fallback — for every environment value, the resolved token is
the empty string — and no `AUTHORIZATION` header is set. -/
theorem init_empty_token (envToken : Option String) :
    SDKBaseClient.resolveToken (some "") envToken = some "" ∧
    (SDKBaseClient.init (some "http://example.com") 1800 (some "")
        envToken false false 100 150 300000).toOption.map Client.token =
      some (some "") ∧
    (SDKBaseClient.init (some "http://example.com") 1800 (some "")
        envToken false false 100 150 300000).toOption.map Client.headers =
      some [] :=
  ⟨rfl, rfl, rfl⟩

/-- C7: serialization encodes every `set` and `frozenset` value as a JSON
array of its elements in iteration order; in particular an argument
containing the set `{"a"}` yields the JSON array `["a"]` inside the
outgoing request body's `params`. -/
theorem encoder_set_frozenset (xs : List PyVal) :
    encode (.set xs) = .arr (encodeList xs) ∧
    encode (.frozenset xs) = .arr (encodeList xs) ∧
    encodeList xs = xs.map encode ∧
    (buildEnvelope "Workspace.save_objects" [.set [.str "a"]] none
        "123").get "params" = some (.arr [.arr [.str "a"]]) := by
  refine ⟨rfl, rfl, ?_, rfl⟩
  induction xs with
  | nil => rfl
  | cons x t ih => simp [encodeList, ih]

/-- C8: a response whose status is neither 500 nor in the success range
(requests' `ok` is status < 400) makes `_call` raise the transport
layer's HTTP-status error via `ret.raise_for_status()` — not a
ServiceError. -/
theorem call_non500_http_failure (r : Resp) (h500 : r.status ≠ 500)
    (hok : respOk r.status = false) :
    classifyResponse r = .httpError r.status ∧
    isServerErrorOutcome (classifyResponse r) = false := by
  have h : classifyResponse r = .httpError r.status := by
    simp [classifyResponse, h500, hok]
  exact ⟨h, by rw [h]; rfl⟩

/-- C8 witness: a 404 response propagates as the 404 HTTP error. -/
theorem call_non500_http_failure_witness :
    classifyResponse ⟨404, none, "nf", none⟩ = .httpError 404 ∧
    isServerErrorOutcome (classifyResponse ⟨404, none, "nf", none⟩) =
      false :=
  call_non500_http_failure ⟨404, none, "nf", none⟩ (by decide) rfl

/-- C9: for every method name, argument list and `service_ver` value,
`call_method` sends the request to the client's configured base url, and
`service_ver` has no effect on the request sent or the outcome
returned. -/
theorem call_method_ignores_service_ver (c : Client) (m : String)
    (args : List PyVal) (sv sv' : Option String) (idStr : String)
    (transport : Request → Resp) :
    SDKBaseClient.call_method c m args sv idStr transport =
      SDKBaseClient.call_method c m args sv' idStr transport ∧
    SDKBaseClient.call_method c m args sv idStr transport =
      classifyResponse
        (transport (SDKBaseClient.callRequest c c.url m args none idStr)) ∧
    (SDKBaseClient.callRequest c c.url m args none idStr).url = c.url :=
  ⟨rfl, rfl, rfl⟩
